import Mathlib

/-!
Shallow embedding of `credential_checker.py` (class `CredentialChecker` and
`main`) and verification of its specification claims.

The Python program sweeps configured services (five databases plus Redis)
with candidate credentials.  Configuration entries are YAML mappings, so a
field access `config['host']` can raise `KeyError`; we model each field as
an `Option` and field access as a `KeyError`-raising lookup.  The external
database/cache client libraries are modelled as oracles: a client call
either completes (`ClientOutcome.ok`) or raises some exception
(`ClientOutcome.exn`), and the probe outcome seen by the engine is an
arbitrary boolean-valued function (`ProbeEnv`).
-/

set_option autoImplicit false

namespace CredChecker

/-- A YAML scalar appearing in a finding record: a string or an integer. -/
inductive JVal where
  | s : String → JVal
  | n : Int → JVal
deriving Repr, DecidableEq

/-- A finding is the Python dict appended to `self.results`: an ordered
association list of keys to values, in insertion order. -/
abbrev Finding := List (String × JVal)

/-- One element of a `default_credentials` list: a YAML mapping with
(possibly missing) `username` and `password` fields. -/
structure CredEntry where
  username : Option String
  password : Option String
deriving Repr, DecidableEq

/-- The YAML mapping configured for one service key: `host`, `port`,
`default_credentials` (database services) and `default_passwords` (redis)
are each possibly missing. -/
structure ServiceEntry where
  host : Option String
  port : Option Int
  default_credentials : Option (List CredEntry)
  default_passwords : Option (List String)
deriving Repr, DecidableEq

/-- The parsed configuration `self.config`: the list of top-level keys
present in the YAML mapping, and the entry stored under each present key. -/
structure Config where
  keys : List String
  entries : String → ServiceEntry

/-- A Python exception raised by the engine: `KeyError(k)` from a missing
dict field `k`. -/
inductive PyError where
  | keyError : String → PyError
deriving Repr, DecidableEq

/-- The outcome of one call into an external client library: the call
completed, or it raised some exception (connection refused, unreachable
host, handshake failure, rejected credential, protocol error, timeout…),
carrying its message. -/
inductive ClientOutcome where
  | ok : ClientOutcome
  | exn : String → ClientOutcome
deriving Repr, DecidableEq

/-- `check_postgres`: wraps `psycopg2.connect(...)`/`close` in
`try: … return True / except Exception: return False`. -/
def check_postgres (connect : String → Int → String → String → ClientOutcome)
    (host : String) (port : Int) (username password : String) : Bool :=
  match connect host port username password with
  | .ok => true
  | .exn _ => false

/-- `check_mysql`: wraps `mysql.connector.connect(...)`/`close`. -/
def check_mysql (connect : String → Int → String → String → ClientOutcome)
    (host : String) (port : Int) (username password : String) : Bool :=
  match connect host port username password with
  | .ok => true
  | .exn _ => false

/-- `check_mongodb`: wraps `pymongo.MongoClient(uri)` plus the forced
`server_info()` connection attempt. -/
def check_mongodb (connect : String → Int → String → String → ClientOutcome)
    (host : String) (port : Int) (username password : String) : Bool :=
  match connect host port username password with
  | .ok => true
  | .exn _ => false

/-- `check_mssql`: wraps `pymssql.connect(...)`/`close`. -/
def check_mssql (connect : String → Int → String → String → ClientOutcome)
    (host : String) (port : Int) (username password : String) : Bool :=
  match connect host port username password with
  | .ok => true
  | .exn _ => false

/-- `check_oracle`: wraps `oracledb.connect(...)`/`close`. -/
def check_oracle (connect : String → Int → String → String → ClientOutcome)
    (host : String) (port : Int) (username password : String) : Bool :=
  match connect host port username password with
  | .ok => true
  | .exn _ => false

/-- `check_redis`: wraps `redis.Redis(host, port, password).ping()`; it
takes a password only, no username. -/
def check_redis (client : String → Int → String → ClientOutcome)
    (host : String) (port : Int) (password : String) : Bool :=
  match client host port password with
  | .ok => true
  | .exn _ => false

/-- The probe outcomes the engine observes, abstracting the six `check_*`
methods: `dbProbe` takes the database type (the key of the `check_methods`
dict used for dispatch), host, port, username and password; `redisProbe`
takes host, port and password. -/
structure ProbeEnv where
  dbProbe : String → String → Int → String → String → Bool
  redisProbe : String → Int → String → Bool

/-- The keys of the `check_methods` dispatch dict in `check_database`. -/
def check_methods : List String :=
  ["postgresql", "mysql", "mongodb", "mssql", "oracle"]

/-- The `database_services` list local to `run_checks`. -/
def database_services : List String :=
  ["postgresql", "mysql", "mongodb", "mssql", "oracle"]

/-- Python's `str.upper()` on the service-type names (all ASCII):
upper-case each character of the string.  (`String.toUpper` is
extensionally this same map but its recursion does not reduce in the
kernel, so the character-list form is used.) -/
def pyUpper (s : String) : String := ⟨s.data.map Char.toUpper⟩

/-- The dict appended to `self.results` by `check_database` on success:
keys `service` (the upper-cased type), `host`, `port`, `username`,
`password`, in insertion order. -/
def dbFinding (db_type host : String) (port : Int) (username password : String) :
    Finding :=
  [("service", .s (pyUpper db_type)), ("host", .s host), ("port", .n port),
   ("username", .s username), ("password", .s password)]

/-- The dict appended to `self.results` by the Redis sweep in `run_checks`:
keys `service` (`"Redis"`), `host`, `port`, `password` — no username key. -/
def redisFinding (host : String) (port : Int) (password : String) : Finding :=
  [("service", .s "Redis"), ("host", .s host), ("port", .n port),
   ("password", .s password)]

/-- `check_database(db_type, config, cred)`: dispatch through
`check_methods` (logging and returning on an unsupported type), evaluate
the four dict accesses `config['host']`, `config['port']`,
`cred['username']`, `cred['password']` in Python's argument order (each can
raise `KeyError`), call the probe, and append a finding on success.
`results` is the `self.results` list at call time.  The second component
counts the probe calls made during this invocation (0 or 1), instrumenting
the call for the specification's probe-call-count properties. -/
def check_database (env : ProbeEnv) (db_type : String) (config : ServiceEntry)
    (cred : CredEntry) (results : List Finding) :
    Except PyError (List Finding) × Nat :=
  if db_type ∈ check_methods then
    match config.host with
    | none => (.error (.keyError "host"), 0)
    | some host =>
      match config.port with
      | none => (.error (.keyError "port"), 0)
      | some port =>
        match cred.username with
        | none => (.error (.keyError "username"), 0)
        | some username =>
          match cred.password with
          | none => (.error (.keyError "password"), 0)
          | some password =>
            if env.dbProbe db_type host port username password then
              (.ok (results ++ [dbFinding db_type host port username password]), 1)
            else
              (.ok results, 1)
  else
    (.ok results, 0)

/-- The inner credential loop of `run_checks`:
`for cred in db_config['default_credentials']: self.check_database(...)`.
Propagates the first raised `KeyError`; accumulates the probe-call count. -/
def checkCredsLoop (env : ProbeEnv) (db_type : String) (db_config : ServiceEntry) :
    List CredEntry → List Finding → Except PyError (List Finding) × Nat
  | [], results => (.ok results, 0)
  | cred :: rest, results =>
    match check_database env db_type db_config cred results with
    | (.error e, n) => (.error e, n)
    | (.ok results2, n) =>
      let r := checkCredsLoop env db_type db_config rest results2
      (r.1, n + r.2)

/-- The outer loop of `run_checks` over `database_services`: a configured
type's entry is fetched, its `default_credentials` list accessed (a
`KeyError` if missing), and each credential checked; an unconfigured type
is skipped. -/
def checkDbLoop (env : ProbeEnv) (cfg : Config) :
    List String → List Finding → Except PyError (List Finding) × Nat
  | [], results => (.ok results, 0)
  | db_type :: rest, results =>
    if db_type ∈ cfg.keys then
      match (cfg.entries db_type).default_credentials with
      | none => (.error (.keyError "default_credentials"), 0)
      | some creds =>
        match checkCredsLoop env db_type (cfg.entries db_type) creds results with
        | (.error e, n) => (.error e, n)
        | (.ok results2, n) =>
          let r := checkDbLoop env cfg rest results2
          (r.1, n + r.2)
    else
      checkDbLoop env cfg rest results

/-- The Redis password loop of `run_checks`: for each password the dict
accesses `redis_config['host']` and `redis_config['port']` are evaluated
(each can raise `KeyError`), `check_redis` is called, and on success the
password-only finding is appended. -/
def checkRedisLoop (env : ProbeEnv) (redis_config : ServiceEntry) :
    List String → List Finding → Except PyError (List Finding) × Nat
  | [], results => (.ok results, 0)
  | password :: rest, results =>
    match redis_config.host with
    | none => (.error (.keyError "host"), 0)
    | some host =>
      match redis_config.port with
      | none => (.error (.keyError "port"), 0)
      | some port =>
        let results2 :=
          if env.redisProbe host port password then
            results ++ [redisFinding host port password]
          else
            results
        let r := checkRedisLoop env redis_config rest results2
        (r.1, 1 + r.2)

/-- `run_checks`, instrumented: starting from the `self.results` list
`results0`, process every database service in `database_services` order,
then the Redis sweep; return the final `self.results` (or the first raised
`KeyError`) together with the total number of probe calls made. -/
def run_checksT (env : ProbeEnv) (cfg : Config) (results0 : List Finding) :
    Except PyError (List Finding) × Nat :=
  match checkDbLoop env cfg database_services results0 with
  | (.error e, n) => (.error e, n)
  | (.ok results, n) =>
    if "redis" ∈ cfg.keys then
      match (cfg.entries "redis").default_passwords with
      | none => (.error (.keyError "default_passwords"), n)
      | some passwords =>
        let r := checkRedisLoop env (cfg.entries "redis") passwords results
        (r.1, n + r.2)
    else
      (.ok results, n)

/-- The value `run_checks` returns on a freshly-initialized checker
(`__init__` sets `self.results = []`), or the exception it raises. -/
def run_checks (env : ProbeEnv) (cfg : Config) : Except PyError (List Finding) :=
  (run_checksT env cfg []).1

/-- The number of probe calls (invocations of a `check_*` method's client)
made during `run_checks` on a freshly-initialized checker, including a run
aborted by a `KeyError`. -/
def probeCalls (env : ProbeEnv) (cfg : Config) : Nat :=
  (run_checksT env cfg []).2

/-- The result of the `main` entry point: `exit c` for a `sys.exit(c)` or
an uncaught exception (Python exits with status 1 on an unhandled
traceback), `completed results` when the sweep runs to the end, logs, and
falls off `main` (process exit status 0).  The configuration-load outcome
of `_load_config` is the oracle `raw`: `none` when opening/parsing the file
raised (then `_load_config` calls `sys.exit(1)`), `some cfg` otherwise. -/
inductive MainResult where
  | exit : Nat → MainResult
  | completed : List Finding → MainResult
deriving Repr, DecidableEq

/-- `main`: load the configuration (exit 1 on load failure), run the
checks (an uncaught `KeyError` terminates the process with status 1), then
log the results and return (exit status 0). -/
def main (env : ProbeEnv) (raw : Option Config) : MainResult :=
  match raw with
  | none => .exit 1
  | some cfg =>
    match run_checks env cfg with
    | .error _ => .exit 1
    | .ok results => .completed results

/-- A credential entry is well-formed when both of its fields are present. -/
def credWF (c : CredEntry) : Bool :=
  c.username.isSome && c.password.isSome

/-- A database service entry is well-formed when `host`, `port` and
`default_credentials` are present and every credential entry is
well-formed. -/
def dbEntryWF (e : ServiceEntry) : Bool :=
  e.host.isSome && e.port.isSome &&
    (match e.default_credentials with
     | some creds => creds.all credWF
     | none => false)

/-- The redis entry is well-formed when `host`, `port` and
`default_passwords` are present. -/
def redisEntryWF (e : ServiceEntry) : Bool :=
  e.host.isSome && e.port.isSome && e.default_passwords.isSome

/-- A configuration is well-formed when every configured database service
entry and, if present, the redis entry are well-formed. -/
def configWF (cfg : Config) : Bool :=
  (database_services.all fun t =>
    !(decide (t ∈ cfg.keys)) || dbEntryWF (cfg.entries t)) &&
  (!(decide ("redis" ∈ cfg.keys)) || redisEntryWF (cfg.entries "redis"))

/-- The findings one configured database type contributes, in
candidate-list order: one `dbFinding` per credential whose probe returns
true. -/
def expectedDbTypeFindings (env : ProbeEnv) (cfg : Config) (t : String) :
    List Finding :=
  match (cfg.entries t).host, (cfg.entries t).port,
      (cfg.entries t).default_credentials with
  | some h, some p, some creds =>
    creds.filterMap fun c =>
      match c.username, c.password with
      | some u, some w =>
        if env.dbProbe t h p u w then some (dbFinding t h p u w) else none
      | _, _ => none
  | _, _, _ => []

/-- The database-sweep findings, in evaluation order: configured service
types in `database_services` order, and within each type its successful
credentials in candidate-list order. -/
def expectedDbFindings (env : ProbeEnv) (cfg : Config) : List Finding :=
  (database_services.filter fun t => t ∈ cfg.keys).flatMap fun t =>
    expectedDbTypeFindings env cfg t

/-- The Redis-sweep findings, in password-list order: one password-only
`redisFinding` per configured password whose probe returns true. -/
def expectedRedisFindings (env : ProbeEnv) (cfg : Config) : List Finding :=
  if "redis" ∈ cfg.keys then
    match (cfg.entries "redis").host, (cfg.entries "redis").port,
        (cfg.entries "redis").default_passwords with
    | some h, some p, some passwords =>
      passwords.filterMap fun w =>
        if env.redisProbe h p w then some (redisFinding h p w) else none
    | _, _, _ => []
  else []

/-- The full Cartesian-product size of a sweep: the number of candidate
credentials of every configured database type plus the number of
configured redis passwords. -/
def totalAttempts (cfg : Config) : Nat :=
  ((database_services.filter fun t => t ∈ cfg.keys).map fun t =>
      match (cfg.entries t).default_credentials with
      | some creds => creds.length
      | none => 0).sum
  + (if "redis" ∈ cfg.keys then
      match (cfg.entries "redis").default_passwords with
      | some passwords => passwords.length
      | none => 0
    else 0)

/-- The number of probe successes of a sweep. -/
def totalSuccesses (env : ProbeEnv) (cfg : Config) : Nat :=
  (expectedDbFindings env cfg).length + (expectedRedisFindings env cfg).length

/-- The state of a `CredentialChecker` object: the loaded configuration
and the `self.results` list. -/
structure CredentialChecker where
  config : Config
  results : List Finding

/-- `CredentialChecker.__init__` with an already-loaded configuration:
stores the configuration and sets `self.results = []`. -/
def CredentialChecker.mkChecker (cfg : Config) : CredentialChecker :=
  { config := cfg, results := [] }

/-- The `run_checks` method on an engine object: the sweep starts from the
object's current `self.results` list. -/
def CredentialChecker.run (env : ProbeEnv) (c : CredentialChecker) :
    Except PyError (List Finding) :=
  (run_checksT env c.config c.results).1

/-- Test fixture: a well-formed postgresql entry with two candidate
credentials. -/
def entryPG : ServiceEntry :=
  { host := some "db.local", port := some 5432,
    default_credentials := some
      [{ username := some "admin", password := some "admin" },
       { username := some "postgres", password := some "postgres" }],
    default_passwords := none }

/-- Test fixture: a malformed mysql entry (the required `host` field is
missing) with one candidate credential. -/
def entryMySQLBad : ServiceEntry :=
  { host := none, port := some 3306,
    default_credentials := some
      [{ username := some "root", password := some "root" }],
    default_passwords := none }

/-- Test fixture: a well-formed redis entry with two candidate
passwords. -/
def entryRedis : ServiceEntry :=
  { host := some "cache.local", port := some 6379,
    default_credentials := none,
    default_passwords := some ["", "redis"] }

/-- Test fixture: the entry returned for keys absent from the mapping. -/
def emptyEntry : ServiceEntry :=
  { host := none, port := none, default_credentials := none,
    default_passwords := none }

/-- Test fixture: a well-formed configuration with a postgresql service
and a redis service. -/
def cfgW : Config :=
  { keys := ["postgresql", "redis"],
    entries := fun k =>
      if k = "postgresql" then entryPG
      else if k = "redis" then entryRedis
      else emptyEntry }

/-- Test fixture: a configuration whose postgresql entry is well-formed
and whose mysql entry is missing its `host` field. -/
def cfgC3 : Config :=
  { keys := ["postgresql", "mysql"],
    entries := fun k =>
      if k = "postgresql" then entryPG
      else if k = "mysql" then entryMySQLBad
      else emptyEntry }

/-- Test fixture: a configuration whose only service, mysql, is missing
its `host` field. -/
def cfgOnlyBad : Config :=
  { keys := ["mysql"],
    entries := fun k => if k = "mysql" then entryMySQLBad else emptyEntry }

/-- Test fixture: deterministic probe outcomes — a database credential
succeeds when username equals password, a redis password succeeds when it
equals `"redis"`. -/
def envW : ProbeEnv :=
  { dbProbe := fun _ _ _ u w => u == w,
    redisProbe := fun _ _ w => w == "redis" }

/-- Test fixture: every probe fails. -/
def envFalse : ProbeEnv :=
  { dbProbe := fun _ _ _ _ _ => false,
    redisProbe := fun _ _ _ => false }

theorem checkCredsLoop_wf (env : ProbeEnv) (t h : String) (p : Int)
    (e : ServiceEntry) (he : e.host = some h) (hp : e.port = some p)
    (ht : t ∈ check_methods) :
    ∀ (creds : List CredEntry) (results : List Finding),
      creds.all credWF = true →
      checkCredsLoop env t e creds results =
        (.ok (results ++ creds.filterMap fun c =>
          match c.username, c.password with
          | some u, some w =>
            if env.dbProbe t h p u w then some (dbFinding t h p u w) else none
          | _, _ => none), creds.length) := by
  intro creds
  induction creds with
  | nil => intro results _; simp [checkCredsLoop]
  | cons c rest ih =>
    intro results hwf
    simp only [List.all_cons, Bool.and_eq_true] at hwf
    obtain ⟨hc, hrest⟩ := hwf
    have hc2 : c.username.isSome = true ∧ c.password.isSome = true := by
      simpa [credWF, Bool.and_eq_true] using hc
    obtain ⟨u, hu⟩ := Option.isSome_iff_exists.mp hc2.1
    obtain ⟨w, hw⟩ := Option.isSome_iff_exists.mp hc2.2
    simp only [checkCredsLoop, check_database, if_pos ht, he, hp, hu, hw]
    by_cases hprobe : env.dbProbe t h p u w
    · simp [hprobe, ih _ hrest, Nat.add_comm, List.filterMap_cons, hu, hw]
    · simp [hprobe, ih _ hrest, Nat.add_comm, List.filterMap_cons, hu, hw]

theorem checkDbLoop_wf (env : ProbeEnv) (cfg : Config) :
    ∀ (ts : List String) (results : List Finding),
      (∀ t ∈ ts, t ∈ check_methods) →
      (∀ t ∈ ts, t ∈ cfg.keys → dbEntryWF (cfg.entries t) = true) →
      checkDbLoop env cfg ts results =
        (.ok (results ++ ((ts.filter fun t => t ∈ cfg.keys).flatMap fun t =>
            expectedDbTypeFindings env cfg t)),
         ((ts.filter fun t => t ∈ cfg.keys).map fun t =>
            match (cfg.entries t).default_credentials with
            | some creds => creds.length
            | none => 0).sum) := by
  intro ts
  induction ts with
  | nil => intro results _ _; simp [checkDbLoop]
  | cons t rest ih =>
    intro results hsup hwf
    by_cases hk : t ∈ cfg.keys
    · have hewf : dbEntryWF (cfg.entries t) = true :=
        hwf t (List.mem_cons_self t rest) hk
      have hewf2 : (cfg.entries t).host.isSome = true ∧
          (cfg.entries t).port.isSome = true := by
        rcases hcr : (cfg.entries t).default_credentials with _ | creds
        · simp [dbEntryWF, hcr, Bool.and_eq_true] at hewf
        · simp [dbEntryWF, hcr, Bool.and_eq_true] at hewf
          exact ⟨hewf.1.1, hewf.1.2⟩
      obtain ⟨h, hh⟩ := Option.isSome_iff_exists.mp hewf2.1
      obtain ⟨p, hp⟩ := Option.isSome_iff_exists.mp hewf2.2
      rcases hcr : (cfg.entries t).default_credentials with _ | creds
      · simp [dbEntryWF, hcr] at hewf
      · have hcwf : creds.all credWF = true := by
          simp [dbEntryWF, hcr, Bool.and_eq_true] at hewf
          exact List.all_eq_true.mpr hewf.2
        have hloop := checkCredsLoop_wf env t h p (cfg.entries t) hh hp
          (hsup t (List.mem_cons_self t rest)) creds results hcwf
        have hrest1 : ∀ s ∈ rest, s ∈ check_methods := fun s hs =>
          hsup s (List.mem_cons_of_mem t hs)
        have hrest2 : ∀ s ∈ rest, s ∈ cfg.keys →
            dbEntryWF (cfg.entries s) = true := fun s hs =>
          hwf s (List.mem_cons_of_mem t hs)
        simp only [checkDbLoop, if_pos hk, hcr, hloop, ih _ hrest1 hrest2]
        simp [List.filter_cons, hk, expectedDbTypeFindings, hh, hp, hcr,
          List.append_assoc]
    · have hrest1 : ∀ s ∈ rest, s ∈ check_methods := fun s hs =>
        hsup s (List.mem_cons_of_mem t hs)
      have hrest2 : ∀ s ∈ rest, s ∈ cfg.keys →
          dbEntryWF (cfg.entries s) = true := fun s hs =>
        hwf s (List.mem_cons_of_mem t hs)
      simp only [checkDbLoop, if_neg hk, ih _ hrest1 hrest2]
      simp [List.filter_cons, hk]

theorem checkRedisLoop_wf (env : ProbeEnv) (e : ServiceEntry) (h : String)
    (p : Int) (hh : e.host = some h) (hp : e.port = some p) :
    ∀ (passwords : List String) (results : List Finding),
      checkRedisLoop env e passwords results =
        (.ok (results ++ passwords.filterMap fun w =>
            if env.redisProbe h p w then some (redisFinding h p w) else none),
         passwords.length) := by
  intro passwords
  induction passwords with
  | nil => intro results; simp [checkRedisLoop]
  | cons w rest ih =>
    intro results
    by_cases hprobe : env.redisProbe h p w
    · simp [checkRedisLoop, hh, hp, hprobe, ih, List.filterMap_cons,
        Nat.add_comm]
    · simp [checkRedisLoop, hh, hp, hprobe, ih, List.filterMap_cons,
        Nat.add_comm]

theorem run_checksT_wf (env : ProbeEnv) (cfg : Config)
    (hwf : configWF cfg = true) (results0 : List Finding) :
    run_checksT env cfg results0 =
      (.ok ((results0 ++ expectedDbFindings env cfg) ++
          expectedRedisFindings env cfg),
       totalAttempts cfg) := by
  have hwf2 : (∀ t ∈ database_services, t ∈ cfg.keys →
      dbEntryWF (cfg.entries t) = true) ∧
      ("redis" ∈ cfg.keys → redisEntryWF (cfg.entries "redis") = true) := by
    simp only [configWF, Bool.and_eq_true, List.all_eq_true,
      Bool.or_eq_true, Bool.not_eq_true', decide_eq_false_iff_not] at hwf
    constructor
    · intro t ht hk
      rcases hwf.1 t ht with hno | hyes
      · exact absurd hk hno
      · exact hyes
    · intro hk
      rcases hwf.2 with hno | hyes
      · exact absurd hk hno
      · exact hyes
  have hsup : ∀ t ∈ database_services, t ∈ check_methods := by
    intro t ht
    simpa [check_methods] using (by simpa [database_services] using ht)
  have hdb := checkDbLoop_wf env cfg database_services results0 hsup hwf2.1
  by_cases hk : "redis" ∈ cfg.keys
  · have hrwf : redisEntryWF (cfg.entries "redis") = true := hwf2.2 hk
    have hrwf2 : (cfg.entries "redis").host.isSome = true ∧
        (cfg.entries "redis").port.isSome = true ∧
        (cfg.entries "redis").default_passwords.isSome = true := by
      simpa [redisEntryWF, Bool.and_eq_true, and_assoc] using hrwf
    obtain ⟨h, hh⟩ := Option.isSome_iff_exists.mp hrwf2.1
    obtain ⟨p, hp⟩ := Option.isSome_iff_exists.mp hrwf2.2.1
    obtain ⟨passwords, hpw⟩ := Option.isSome_iff_exists.mp hrwf2.2.2
    have hredis := checkRedisLoop_wf env (cfg.entries "redis") h p hh hp
      passwords (results0 ++ expectedDbFindings env cfg)
    simp only [run_checksT, hdb, if_pos hk, hpw]
    simp only [expectedDbFindings] at hredis
    simp only [hredis]
    simp [expectedRedisFindings, hk, hh, hp, hpw, totalAttempts,
      expectedDbFindings, List.append_assoc]
  · simp only [run_checksT, hdb, if_neg hk]
    simp [expectedRedisFindings, hk, totalAttempts, expectedDbFindings]

theorem dbtype_pyUpper_inj {t t2 : String} (ht : t ∈ database_services)
    (ht2 : t2 ∈ database_services) (h : pyUpper t = pyUpper t2) : t = t2 := by
  fin_cases ht <;> fin_cases ht2 <;> revert h <;> decide

theorem dbFinding_inj {t t2 h h2 u u2 w w2 : String} {p p2 : Int}
    (ht : t ∈ database_services) (ht2 : t2 ∈ database_services)
    (heq : dbFinding t h p u w = dbFinding t2 h2 p2 u2 w2) :
    t = t2 ∧ h = h2 ∧ p = p2 ∧ u = u2 ∧ w = w2 := by
  simp only [dbFinding, List.cons.injEq, Prod.mk.injEq, JVal.s.injEq,
    JVal.n.injEq, and_true, true_and] at heq
  exact ⟨dbtype_pyUpper_inj ht ht2 heq.1, heq.2.1, heq.2.2.1, heq.2.2.2.1,
    heq.2.2.2.2⟩

theorem redisFinding_inj {h h2 : String} {p p2 : Int} {w w2 : String}
    (heq : redisFinding h p w = redisFinding h2 p2 w2) :
    h = h2 ∧ p = p2 ∧ w = w2 := by
  simp only [redisFinding, List.cons.injEq, Prod.mk.injEq, JVal.s.injEq,
    JVal.n.injEq, and_true, true_and] at heq
  exact ⟨heq.1, heq.2.1, heq.2.2⟩

theorem dbFinding_ne_redisFinding (t h : String) (p : Int) (u w h2 : String)
    (p2 : Int) (w2 : String) : dbFinding t h p u w ≠ redisFinding h2 p2 w2 := by
  simp [dbFinding, redisFinding]

theorem mem_expectedDbTypeFindings_iff (env : ProbeEnv) (cfg : Config)
    (t : String) (f : Finding) :
    f ∈ expectedDbTypeFindings env cfg t ↔
      ∃ h p u w, (cfg.entries t).host = some h ∧
        (cfg.entries t).port = some p ∧
        (∃ creds, (cfg.entries t).default_credentials = some creds ∧
          CredEntry.mk (some u) (some w) ∈ creds) ∧
        env.dbProbe t h p u w = true ∧ f = dbFinding t h p u w := by
  constructor
  · intro hf
    unfold expectedDbTypeFindings at hf
    rcases hh : (cfg.entries t).host with _ | h <;>
      rcases hp : (cfg.entries t).port with _ | p <;>
        rcases hc : (cfg.entries t).default_credentials with _ | creds <;>
          simp only [hh, hp, hc] at hf <;> try simp at hf
    obtain ⟨c, hcmem, hsome⟩ := hf
    rcases c with ⟨cu, cw⟩
    rcases cu with _ | u <;> rcases cw with _ | w <;> simp at hsome
    exact ⟨h, p, u, w, rfl, rfl, ⟨creds, rfl, hcmem⟩, hsome.1, hsome.2.symm⟩
  · rintro ⟨h, p, u, w, hh, hp, ⟨creds, hc, hmem⟩, hprobe, rfl⟩
    unfold expectedDbTypeFindings
    simp only [hh, hp, hc]
    rw [List.mem_filterMap]
    exact ⟨⟨some u, some w⟩, hmem, by simp [hprobe]⟩

theorem mem_expectedDbFindings_iff (env : ProbeEnv) (cfg : Config)
    (f : Finding) :
    f ∈ expectedDbFindings env cfg ↔
      ∃ t, t ∈ database_services ∧ t ∈ cfg.keys ∧
        f ∈ expectedDbTypeFindings env cfg t := by
  unfold expectedDbFindings
  rw [List.mem_flatMap]
  constructor
  · rintro ⟨t, htmem, hf⟩
    rw [List.mem_filter] at htmem
    exact ⟨t, htmem.1, by simpa using htmem.2, hf⟩
  · rintro ⟨t, ht, hk, hf⟩
    exact ⟨t, List.mem_filter.mpr ⟨ht, by simpa using hk⟩, hf⟩

theorem mem_expectedRedisFindings_iff (env : ProbeEnv) (cfg : Config)
    (f : Finding) :
    f ∈ expectedRedisFindings env cfg ↔
      "redis" ∈ cfg.keys ∧
      ∃ h p w, (cfg.entries "redis").host = some h ∧
        (cfg.entries "redis").port = some p ∧
        (∃ passwords, (cfg.entries "redis").default_passwords = some passwords ∧
          w ∈ passwords) ∧
        env.redisProbe h p w = true ∧ f = redisFinding h p w := by
  unfold expectedRedisFindings
  by_cases hk : "redis" ∈ cfg.keys
  · rw [if_pos hk]
    constructor
    · intro hf
      rcases hh : (cfg.entries "redis").host with _ | h <;>
        rcases hp : (cfg.entries "redis").port with _ | p <;>
          rcases hc : (cfg.entries "redis").default_passwords with _ | pws <;>
            simp only [hh, hp, hc] at hf <;> try simp at hf
      obtain ⟨w, hwmem, hprobe, hfeq⟩ := hf
      exact ⟨hk, h, p, w, rfl, rfl, ⟨pws, rfl, hwmem⟩, hprobe, hfeq.symm⟩
    · rintro ⟨_, h, p, w, hh, hp, ⟨pws, hc, hmem⟩, hprobe, rfl⟩
      simp only [hh, hp, hc]
      rw [List.mem_filterMap]
      exact ⟨w, hmem, by simp [hprobe]⟩
  · rw [if_neg hk]
    simp [hk]

theorem run_checks_wf_eq (env : ProbeEnv) (cfg : Config)
    (hwf : configWF cfg = true) :
    run_checks env cfg =
      .ok (expectedDbFindings env cfg ++ expectedRedisFindings env cfg) := by
  unfold run_checks
  rw [run_checksT_wf env cfg hwf []]
  simp

theorem probeCalls_wf_eq (env : ProbeEnv) (cfg : Config)
    (hwf : configWF cfg = true) : probeCalls env cfg = totalAttempts cfg := by
  unfold probeCalls
  rw [run_checksT_wf env cfg hwf []]

theorem mem_run_db_iff (env : ProbeEnv) (cfg : Config)
    (hwf : configWF cfg = true) (fs : List Finding)
    (hrun : run_checks env cfg = .ok fs) (t h : String) (p : Int)
    (u w : String) (ht : t ∈ database_services) :
    dbFinding t h p u w ∈ fs ↔
      t ∈ cfg.keys ∧ (cfg.entries t).host = some h ∧
      (cfg.entries t).port = some p ∧
      (∃ creds, (cfg.entries t).default_credentials = some creds ∧
        CredEntry.mk (some u) (some w) ∈ creds) ∧
      env.dbProbe t h p u w = true := by
  have hfs : fs = expectedDbFindings env cfg ++ expectedRedisFindings env cfg := by
    have := run_checks_wf_eq env cfg hwf
    rw [hrun] at this
    exact (Except.ok.injEq _ _).mp this
  subst hfs
  rw [List.mem_append]
  constructor
  · rintro (hdb | hredis)
    · obtain ⟨t2, ht2, hk2, hf2⟩ := (mem_expectedDbFindings_iff env cfg _).mp hdb
      obtain ⟨h2, p2, u2, w2, hh2, hp2, hcr2, hprobe2, heq⟩ :=
        (mem_expectedDbTypeFindings_iff env cfg t2 _).mp hf2
      obtain ⟨rfl, rfl, rfl, rfl, rfl⟩ := dbFinding_inj ht ht2 heq
      exact ⟨hk2, hh2, hp2, hcr2, hprobe2⟩
    · obtain ⟨_, h2, p2, w2, _, _, _, _, heq⟩ :=
        (mem_expectedRedisFindings_iff env cfg _).mp hredis
      exact absurd heq (dbFinding_ne_redisFinding t h p u w h2 p2 w2)
  · rintro ⟨hk, hh, hp, hcr, hprobe⟩
    exact Or.inl ((mem_expectedDbFindings_iff env cfg _).mpr
      ⟨t, ht, hk, (mem_expectedDbTypeFindings_iff env cfg t _).mpr
        ⟨h, p, u, w, hh, hp, hcr, hprobe, rfl⟩⟩)

theorem mem_run_redis_iff (env : ProbeEnv) (cfg : Config)
    (hwf : configWF cfg = true) (fs : List Finding)
    (hrun : run_checks env cfg = .ok fs) (h : String) (p : Int) (w : String) :
    redisFinding h p w ∈ fs ↔
      "redis" ∈ cfg.keys ∧ (cfg.entries "redis").host = some h ∧
      (cfg.entries "redis").port = some p ∧
      (∃ passwords, (cfg.entries "redis").default_passwords = some passwords ∧
        w ∈ passwords) ∧
      env.redisProbe h p w = true := by
  have hfs : fs = expectedDbFindings env cfg ++ expectedRedisFindings env cfg := by
    have := run_checks_wf_eq env cfg hwf
    rw [hrun] at this
    exact (Except.ok.injEq _ _).mp this
  subst hfs
  rw [List.mem_append]
  constructor
  · rintro (hdb | hredis)
    · obtain ⟨t2, ht2, hk2, hf2⟩ := (mem_expectedDbFindings_iff env cfg _).mp hdb
      obtain ⟨h2, p2, u2, w2, _, _, _, _, heq⟩ :=
        (mem_expectedDbTypeFindings_iff env cfg t2 _).mp hf2
      exact absurd heq.symm (dbFinding_ne_redisFinding t2 h2 p2 u2 w2 h p w)
    · obtain ⟨hk2, h2, p2, w2, hh2, hp2, hpw2, hprobe2, heq⟩ :=
        (mem_expectedRedisFindings_iff env cfg _).mp hredis
      obtain ⟨rfl, rfl, rfl⟩ := redisFinding_inj heq
      exact ⟨hk2, hh2, hp2, hpw2, hprobe2⟩
  · rintro ⟨hk, hh, hp, hpw, hprobe⟩
    exact Or.inr ((mem_expectedRedisFindings_iff env cfg _).mpr
      ⟨hk, h, p, w, hh, hp, hpw, hprobe, rfl⟩)

theorem checkDbLoop_keys_congr (env : ProbeEnv) (keys1 keys2 : List String)
    (entries : String → ServiceEntry) :
    ∀ (ts : List String) (results : List Finding),
      (∀ t ∈ ts, ((t ∈ keys1) ↔ (t ∈ keys2))) →
      checkDbLoop env { keys := keys1, entries := entries } ts results =
        checkDbLoop env { keys := keys2, entries := entries } ts results := by
  intro ts
  induction ts with
  | nil => intro results _; rfl
  | cons t rest ih =>
    intro results hq
    have hmem := hq t (List.mem_cons_self t rest)
    have hrest : ∀ s ∈ rest, ((s ∈ keys1) ↔ (s ∈ keys2)) := fun s hs =>
      hq s (List.mem_cons_of_mem t hs)
    by_cases hk : t ∈ keys2
    · simp only [checkDbLoop, if_pos hk, if_pos (hmem.mpr hk)]
      rcases hc : (entries t).default_credentials with _ | creds
      · simp only [hc]
      · simp only [hc]
        rcases hloop : checkCredsLoop env t (entries t) creds results with ⟨r, n⟩
        rcases r with e | results2
        · simp only [hloop]
        · simp only [hloop, ih _ hrest]
    · simp only [checkDbLoop, if_neg hk, if_neg (fun hm => hk (hmem.mp hm))]
      exact ih _ hrest

theorem run_checksT_keys_congr (env : ProbeEnv) (keys1 keys2 : List String)
    (entries : String → ServiceEntry) (results0 : List Finding)
    (hq : ∀ t ∈ database_services, ((t ∈ keys1) ↔ (t ∈ keys2)))
    (hr : (("redis" : String) ∈ keys1) ↔ (("redis" : String) ∈ keys2)) :
    run_checksT env { keys := keys1, entries := entries } results0 =
      run_checksT env { keys := keys2, entries := entries } results0 := by
  unfold run_checksT
  rw [checkDbLoop_keys_congr env keys1 keys2 entries database_services
    results0 hq]
  rcases hd : checkDbLoop env { keys := keys2, entries := entries }
      database_services results0 with ⟨r, n⟩
  rcases r with e | results
  · rfl
  · by_cases hk : ("redis" : String) ∈ keys2
    · simp only [if_pos hk, if_pos (hr.mpr hk)]
    · simp only [if_neg hk, if_neg (fun hm => hk (hr.mp hm))]

theorem checkDbLoop_first_malformed (env : ProbeEnv) (cfg : Config)
    (t : String) (hk : t ∈ cfg.keys) (hkm : t ∈ check_methods)
    (hhost : (cfg.entries t).host = none) (c : CredEntry) (cs : List CredEntry)
    (hcreds : (cfg.entries t).default_credentials = some (c :: cs)) :
    ∀ (ts : List String) (results : List Finding), t ∈ ts →
      (∀ s ∈ ts.takeWhile (fun s => s != t), s ∉ cfg.keys) →
      checkDbLoop env cfg ts results = (.error (.keyError "host"), 0) := by
  intro ts
  induction ts with
  | nil => intro results hmem _; exact absurd hmem (List.not_mem_nil t)
  | cons s rest ih =>
    intro results hmem hskip
    by_cases hst : s = t
    · subst hst
      simp only [checkDbLoop, if_pos hk, hcreds, checkCredsLoop,
        check_database, if_pos hkm, hhost]
    · have htake : (s :: rest).takeWhile (fun s2 => s2 != t) =
          s :: rest.takeWhile (fun s2 => s2 != t) := by
        simp [List.takeWhile_cons, hst]
      have hsk : s ∉ cfg.keys := by
        apply hskip s
        rw [htake]
        exact List.mem_cons_self s _
      have hmem2 : t ∈ rest := by
        rcases List.mem_cons.mp hmem with heq | hm
        · exact absurd heq.symm hst
        · exact hm
      have hskip2 : ∀ s2 ∈ rest.takeWhile (fun s2 => s2 != t),
          s2 ∉ cfg.keys := by
        intro s2 hs2
        apply hskip s2
        rw [htake]
        exact List.mem_cons_of_mem s hs2
      simp only [checkDbLoop, if_neg hsk]
      exact ih results hmem2 hskip2

theorem clientBool_spec (f : ClientOutcome) :
    ((match f with | .ok => true | .exn _ => false) = true ↔ f = .ok) ∧
    ((match f with | .ok => true | .exn _ => false) = false ↔
      ∃ e, f = .exn e) := by
  cases f <;> simp

/-- Claim C6: each of the six probe methods (`check_postgres`,
`check_mysql`, `check_mongodb`, `check_mssql`, `check_oracle`,
`check_redis`) returns a boolean for every host, port and credential and
every behavior of the underlying client library, and never propagates an
exception: it returns `true` exactly when the client call completed, and
`false` exactly when the client raised some exception (connection refused,
unreachable host, handshake failure, rejected credential, protocol error,
timeout), collapsing every failure to the single value `false`. -/
theorem probes_never_propagate_exceptions :
    ∀ (pg my mo ms orc : String → Int → String → String → ClientOutcome)
      (rd : String → Int → String → ClientOutcome)
      (host : String) (port : Int) (username password : String),
      ((check_postgres pg host port username password = true ↔
          pg host port username password = .ok) ∧
        (check_postgres pg host port username password = false ↔
          ∃ e, pg host port username password = .exn e)) ∧
      ((check_mysql my host port username password = true ↔
          my host port username password = .ok) ∧
        (check_mysql my host port username password = false ↔
          ∃ e, my host port username password = .exn e)) ∧
      ((check_mongodb mo host port username password = true ↔
          mo host port username password = .ok) ∧
        (check_mongodb mo host port username password = false ↔
          ∃ e, mo host port username password = .exn e)) ∧
      ((check_mssql ms host port username password = true ↔
          ms host port username password = .ok) ∧
        (check_mssql ms host port username password = false ↔
          ∃ e, ms host port username password = .exn e)) ∧
      ((check_oracle orc host port username password = true ↔
          orc host port username password = .ok) ∧
        (check_oracle orc host port username password = false ↔
          ∃ e, orc host port username password = .exn e)) ∧
      ((check_redis rd host port password = true ↔
          rd host port password = .ok) ∧
        (check_redis rd host port password = false ↔
          ∃ e, rd host port password = .exn e)) :=
  fun pg my mo ms orc rd host port username password =>
    ⟨clientBool_spec (pg host port username password),
     clientBool_spec (my host port username password),
     clientBool_spec (mo host port username password),
     clientBool_spec (ms host port username password),
     clientBool_spec (orc host port username password),
     clientBool_spec (rd host port password)⟩

/-- Claim C2: for every configuration (well-formed, so that no `KeyError`
aborts the run) and every assignment of probe outcomes, the findings
returned by `run_checks` are exactly the successes in evaluation order:
configured database types in `database_services` order, within each type
the successful credentials in candidate-list order, followed by the Redis
sweep's successes in password-list order. -/
theorem findings_in_evaluation_order (env : ProbeEnv) (cfg : Config)
    (hwf : configWF cfg = true) :
    run_checks env cfg =
      .ok (expectedDbFindings env cfg ++ expectedRedisFindings env cfg) :=
  run_checks_wf_eq env cfg hwf

/-- Witness for C2 at a concrete configuration and probe stub. -/
theorem findings_in_evaluation_order_witness :
    configWF cfgW = true ∧
    run_checks envW cfgW =
      .ok (expectedDbFindings envW cfgW ++ expectedRedisFindings envW cfgW) :=
  ⟨by decide, findings_in_evaluation_order envW cfgW (by decide)⟩

/-- Claim C5: the engine explores the full Cartesian product of configured
service instances and candidate credentials with no early termination: the
number of probe calls equals `totalAttempts cfg`, a quantity independent
of the probe outcomes (so a success never stops the remaining candidates
from being attempted), and the number of findings equals the number of
probe successes (each success is recorded as its own finding). -/
theorem full_cartesian_product_explored (env : ProbeEnv) (cfg : Config)
    (hwf : configWF cfg = true) :
    probeCalls env cfg = totalAttempts cfg ∧
    ∃ fs, run_checks env cfg = .ok fs ∧
      fs.length = totalSuccesses env cfg := by
  refine ⟨probeCalls_wf_eq env cfg hwf,
    expectedDbFindings env cfg ++ expectedRedisFindings env cfg,
    run_checks_wf_eq env cfg hwf, ?_⟩
  simp [totalSuccesses]

/-- Witness for C5 at a concrete configuration and probe stub. -/
theorem full_cartesian_product_explored_witness :
    probeCalls envW cfgW = totalAttempts cfgW ∧
    ∃ fs, run_checks envW cfgW = .ok fs ∧
      fs.length = totalSuccesses envW cfgW :=
  full_cartesian_product_explored envW cfgW (by decide)

/-- Claim C1: for a well-formed configuration, a finding is in the result
of `run_checks` if and only if the corresponding probe returns true for
that host, port and credential: a database finding for a configured triple
is present exactly when `dbProbe` returned true for it, and a Redis
finding exactly when `redisProbe` returned true for that password — the
engine adds no finding on a false outcome and omits none on a true
outcome. -/
theorem finding_iff_probe_success (env : ProbeEnv) (cfg : Config)
    (hwf : configWF cfg = true) (fs : List Finding)
    (hrun : run_checks env cfg = .ok fs) :
    (∀ t h p u w, t ∈ database_services →
      (dbFinding t h p u w ∈ fs ↔
        t ∈ cfg.keys ∧ (cfg.entries t).host = some h ∧
        (cfg.entries t).port = some p ∧
        (∃ creds, (cfg.entries t).default_credentials = some creds ∧
          CredEntry.mk (some u) (some w) ∈ creds) ∧
        env.dbProbe t h p u w = true)) ∧
    (∀ h p w,
      (redisFinding h p w ∈ fs ↔
        "redis" ∈ cfg.keys ∧ (cfg.entries "redis").host = some h ∧
        (cfg.entries "redis").port = some p ∧
        (∃ passwords, (cfg.entries "redis").default_passwords =
          some passwords ∧ w ∈ passwords) ∧
        env.redisProbe h p w = true)) :=
  ⟨fun t h p u w ht => mem_run_db_iff env cfg hwf fs hrun t h p u w ht,
   fun h p w => mem_run_redis_iff env cfg hwf fs hrun h p w⟩

/-- Witness for C1: at the concrete fixture, the probe success
`postgres`/`postgres` yields its finding in the returned list. -/
theorem finding_iff_probe_success_witness :
    dbFinding "postgresql" "db.local" 5432 "postgres" "postgres" ∈
      ([dbFinding "postgresql" "db.local" 5432 "admin" "admin",
        dbFinding "postgresql" "db.local" 5432 "postgres" "postgres",
        redisFinding "cache.local" 6379 "redis"] : List Finding) :=
  ((finding_iff_probe_success envW cfgW (by decide)
      [dbFinding "postgresql" "db.local" 5432 "admin" "admin",
       dbFinding "postgresql" "db.local" 5432 "postgres" "postgres",
       redisFinding "cache.local" 6379 "redis"] (by rfl)).1
    "postgresql" "db.local" 5432 "postgres" "postgres" (by decide)).mpr
    ⟨by decide, by decide, by decide,
      ⟨[CredEntry.mk (some "admin") (some "admin"),
        CredEntry.mk (some "postgres") (some "postgres")], by decide,
        by decide⟩, by decide⟩

/-- Claim C8: running the engine twice over the same configuration with
the probe outcomes held fixed yields identical finding sequences: each run
constructs a fresh `CredentialChecker` (whose `__init__` sets
`self.results = []`), so whatever the first run returned equals whatever
the second run returned. -/
theorem run_twice_identical (env : ProbeEnv) (cfg : Config)
    (r1 r2 : Except PyError (List Finding))
    (h1 : (CredentialChecker.mkChecker cfg).run env = r1)
    (h2 : (CredentialChecker.mkChecker cfg).run env = r2) :
    r2 = r1 :=
  h2.symm.trans h1

/-- Witness for C8: two fresh runs over the concrete fixture both
evaluate to the same three findings. -/
theorem run_twice_identical_witness :
    (Except.ok [dbFinding "postgresql" "db.local" 5432 "admin" "admin",
        dbFinding "postgresql" "db.local" 5432 "postgres" "postgres",
        redisFinding "cache.local" 6379 "redis"] :
      Except PyError (List Finding)) =
    Except.ok [dbFinding "postgresql" "db.local" 5432 "admin" "admin",
        dbFinding "postgresql" "db.local" 5432 "postgres" "postgres",
        redisFinding "cache.local" 6379 "redis"] :=
  run_twice_identical envW cfgW
    (.ok [dbFinding "postgresql" "db.local" 5432 "admin" "admin",
        dbFinding "postgresql" "db.local" 5432 "postgres" "postgres",
        redisFinding "cache.local" 6379 "redis"])
    (.ok [dbFinding "postgresql" "db.local" 5432 "admin" "admin",
        dbFinding "postgresql" "db.local" 5432 "postgres" "postgres",
        redisFinding "cache.local" 6379 "redis"])
    (by rfl) (by rfl)

/-- Claim C4: an unsupported or unrecognized service type is skipped
without raising and without aborting the run.  First conjunct:
`check_database` on a type outside the `check_methods` dispatch table
returns with no probe call, no appended finding and no error.  Second
conjunct: a key for an unsupported type, anywhere in the configuration,
leaves the whole run — its findings, any error, and its probe-call
count — unchanged, so every supported type is still probed and its
findings are still produced. -/
theorem unsupported_type_skipped :
    (∀ (env : ProbeEnv) (db_type : String) (config : ServiceEntry)
        (cred : CredEntry) (results : List Finding),
      db_type ∉ check_methods →
      check_database env db_type config cred results = (.ok results, 0)) ∧
    (∀ (env : ProbeEnv) (keys1 keys2 : List String)
        (entries : String → ServiceEntry) (u : String),
      u ∉ database_services → u ≠ "redis" →
      run_checksT env { keys := keys1 ++ u :: keys2, entries := entries } [] =
        run_checksT env { keys := keys1 ++ keys2, entries := entries } []) := by
  constructor
  · intro env db_type config cred results hns
    simp [check_database, hns]
  · intro env keys1 keys2 entries u hu1 hu2
    apply run_checksT_keys_congr
    · intro t ht
      have htne : ¬ (t = u) := fun h => hu1 (h ▸ ht)
      simp [List.mem_append, List.mem_cons, htne]
    · have hrne : ¬ (("redis" : String) = u) := fun h => hu2 h.symm
      simp [List.mem_append, List.mem_cons, hrne]

/-- Witness for C4: configuring the unrecognized type `sqlite` next to a
postgresql service leaves the run over the concrete fixture unchanged. -/
theorem unsupported_type_skipped_witness :
    ("sqlite" ∉ database_services) ∧
    run_checksT envW { keys := ["sqlite", "postgresql"], entries := cfgW.entries } [] =
      run_checksT envW { keys := ["postgresql"], entries := cfgW.entries } [] :=
  ⟨by decide, unsupported_type_skipped.2 envW [] ["postgresql"] cfgW.entries
    "sqlite" (by decide) (by decide)⟩

/-- Counterexample to claim C3 as stated: in a run over a configuration
whose postgresql entry is well-formed (two candidate credentials) and
whose mysql entry is missing its required `host` field, `run_checks` does
fail with a `KeyError`, but only after both postgresql probes were made:
the probe-call count of the failing run is 2, not 0, so the failure is not
surfaced before any probe is invoked. -/
theorem malformed_instance_probe_calls_nonzero :
    run_checks envFalse cfgC3 = .error (.keyError "host") ∧
    probeCalls envFalse cfgC3 = 2 := by
  constructor
  · rfl
  · rfl

/-- Claim C3 as amended: a malformed configured service instance (missing
`host`, with at least one candidate credential) makes `run_checks` raise
`KeyError('host')` to the caller when that instance is first evaluated,
before any probe call for that instance; when no earlier-evaluated
database type is configured, the run's total probe-call count is zero.
(Probes of earlier-evaluated well-formed services do run first — see the
counterexample — so the original "probe call count is always zero" only
holds when the malformed instance is the first one evaluated.) -/
theorem malformed_first_instance_fail_fast (env : ProbeEnv) (cfg : Config)
    (t : String) (ht : t ∈ database_services) (hk : t ∈ cfg.keys)
    (hhost : (cfg.entries t).host = none) (c : CredEntry) (cs : List CredEntry)
    (hcreds : (cfg.entries t).default_credentials = some (c :: cs))
    (hfirst : ∀ s ∈ database_services.takeWhile (fun s => s != t),
      s ∉ cfg.keys) :
    run_checks env cfg = .error (.keyError "host") ∧
    probeCalls env cfg = 0 := by
  have hkm : t ∈ check_methods := by
    simpa [check_methods] using (by simpa [database_services] using ht)
  have hloop := checkDbLoop_first_malformed env cfg t hk hkm hhost c cs hcreds
    database_services [] ht hfirst
  constructor
  · unfold run_checks run_checksT
    rw [hloop]
  · unfold probeCalls run_checksT
    rw [hloop]

/-- Witness for the amended C3: with mysql as the only configured service
and its `host` missing, the run fails with `KeyError('host')` and zero
probe calls. -/
theorem malformed_first_instance_fail_fast_witness :
    run_checks envFalse cfgOnlyBad = .error (.keyError "host") ∧
    probeCalls envFalse cfgOnlyBad = 0 :=
  malformed_first_instance_fail_fast envFalse cfgOnlyBad "mysql" (by decide)
    (by decide) (by decide)
    (CredEntry.mk (some "root") (some "root")) [] (by decide) (by decide)

/-- Counterexample to claim C7 as stated: `cfgC3` is a configuration that
loads successfully (`_load_config` returned it), yet the run does not
complete — the malformed mysql entry raises an uncaught `KeyError`, and
the process exits with status 1 even though loading the configuration file
succeeded.  So "non-zero exit only on configuration-load failure" and
"every successfully-loaded configuration completes with a findings list"
are both false. -/
theorem loaded_config_can_exit_nonzero :
    main envFalse (some cfgC3) = .exit 1 := by
  rfl

/-- Claim C7 as amended: exit status 0 whenever the sweep runs to
completion, regardless of whether findings were produced; exit status 1
when loading the configuration fails, and also when a successfully-loaded
configuration is malformed so that the run raises an uncaught error; every
well-formed loaded configuration completes with a (possibly empty)
findings list. -/
theorem exit_status_amended (env : ProbeEnv) :
    (main env none = .exit 1) ∧
    (∀ cfg fs, run_checks env cfg = .ok fs →
      main env (some cfg) = .completed fs) ∧
    (∀ cfg, configWF cfg = true →
      main env (some cfg) =
        .completed (expectedDbFindings env cfg ++
          expectedRedisFindings env cfg)) := by
  refine ⟨rfl, ?_, ?_⟩
  · intro cfg fs hrun
    simp [main, hrun]
  · intro cfg hwf
    simp [main, run_checks_wf_eq env cfg hwf]

/-- Witness for the amended C7: the all-failing probe stub completes the
sweep of the well-formed fixture with an empty finding list and exit
status 0. -/
theorem exit_status_amended_witness :
    configWF cfgW = true ∧
    main envFalse (some cfgW) =
      .completed (expectedDbFindings envFalse cfgW ++
        expectedRedisFindings envFalse cfgW) :=
  ⟨by decide, (exit_status_amended envFalse).2.2 cfgW (by decide)⟩

/-- Claim C9: the cache probe `check_redis` takes only host, port and a
password (no username), returns true exactly when the liveness `ping`
client call completes, and the engine treats a configured redis password
exactly as it treats the username-bearing probes: for a well-formed
configuration, a password's probe success holds if and only if its
(username-free) finding is recorded in the result list. -/
theorem redis_password_only_probe (env : ProbeEnv) (cfg : Config)
    (hwf : configWF cfg = true) (fs : List Finding)
    (hrun : run_checks env cfg = .ok fs) (h : String) (p : Int)
    (passwords : List String)
    (hh : (cfg.entries "redis").host = some h)
    (hp : (cfg.entries "redis").port = some p)
    (hpw : (cfg.entries "redis").default_passwords = some passwords)
    (hk : "redis" ∈ cfg.keys) :
    (∀ (rd : String → Int → String → ClientOutcome) (w : String),
      check_redis rd h p w = true ↔ rd h p w = .ok) ∧
    (∀ w ∈ passwords,
      (env.redisProbe h p w = true ↔ redisFinding h p w ∈ fs)) ∧
    (∀ w : String, "username" ∉ (redisFinding h p w).map Prod.fst) := by
  refine ⟨?_, ?_, ?_⟩
  · intro rd w
    cases hc : rd h p w <;> simp [check_redis, hc]
  · intro w hw
    rw [mem_run_redis_iff env cfg hwf fs hrun h p w]
    constructor
    · intro hprobe
      exact ⟨hk, hh, hp, ⟨passwords, hpw, hw⟩, hprobe⟩
    · rintro ⟨_, _, _, _, hprobe⟩
      exact hprobe
  · intro w
    simp [redisFinding]

/-- Witness for C9 at the concrete fixture: the password `redis` succeeds
and its password-only finding is in the returned list. -/
theorem redis_password_only_probe_witness :
    envW.redisProbe "cache.local" 6379 "redis" = true ↔
      redisFinding "cache.local" 6379 "redis" ∈
        ([dbFinding "postgresql" "db.local" 5432 "admin" "admin",
          dbFinding "postgresql" "db.local" 5432 "postgres" "postgres",
          redisFinding "cache.local" 6379 "redis"] : List Finding) :=
  (redis_password_only_probe envW cfgW (by decide)
      [dbFinding "postgresql" "db.local" 5432 "admin" "admin",
       dbFinding "postgresql" "db.local" 5432 "postgres" "postgres",
       redisFinding "cache.local" 6379 "redis"] (by rfl)
      "cache.local" 6379 ["", "redis"] (by decide) (by decide) (by decide)
      (by decide)).2.1 "redis" (by decide)

/-- Claim C10: for a well-formed configuration the result list splits into
the database sweep's findings followed by the cache sweep's findings;
every database finding has exactly the keys `service`, `host`, `port`,
`username`, `password` in that order, every cache finding has exactly the
keys `service`, `host`, `port`, `password`, and the `username` key is
present in a finding if and only if it did not come from the cache
sweep. -/
theorem finding_keys_by_sweep (env : ProbeEnv) (cfg : Config)
    (hwf : configWF cfg = true) :
    ∃ dbFs redisFs,
      run_checks env cfg = .ok (dbFs ++ redisFs) ∧
      (∀ f ∈ dbFs, f.map Prod.fst =
        ["service", "host", "port", "username", "password"]) ∧
      (∀ f ∈ redisFs, f.map Prod.fst =
        ["service", "host", "port", "password"]) ∧
      (∀ f ∈ dbFs, "username" ∈ f.map Prod.fst) ∧
      (∀ f ∈ redisFs, "username" ∉ f.map Prod.fst) := by
  refine ⟨expectedDbFindings env cfg, expectedRedisFindings env cfg,
    run_checks_wf_eq env cfg hwf, ?_, ?_, ?_, ?_⟩
  · intro f hf
    obtain ⟨t2, _, _, hf2⟩ := (mem_expectedDbFindings_iff env cfg f).mp hf
    obtain ⟨h2, p2, u2, w2, _, _, _, _, rfl⟩ :=
      (mem_expectedDbTypeFindings_iff env cfg t2 f).mp hf2
    simp [dbFinding]
  · intro f hf
    obtain ⟨_, h2, p2, w2, _, _, _, _, rfl⟩ :=
      (mem_expectedRedisFindings_iff env cfg f).mp hf
    simp [redisFinding]
  · intro f hf
    obtain ⟨t2, _, _, hf2⟩ := (mem_expectedDbFindings_iff env cfg f).mp hf
    obtain ⟨h2, p2, u2, w2, _, _, _, _, rfl⟩ :=
      (mem_expectedDbTypeFindings_iff env cfg t2 f).mp hf2
    simp [dbFinding]
  · intro f hf
    obtain ⟨_, h2, p2, w2, _, _, _, _, rfl⟩ :=
      (mem_expectedRedisFindings_iff env cfg f).mp hf
    simp [redisFinding]

/-- Witness for C10 at the concrete fixture. -/
theorem finding_keys_by_sweep_witness :
    ∃ dbFs redisFs,
      run_checks envW cfgW = .ok (dbFs ++ redisFs) ∧
      (∀ f ∈ dbFs, f.map Prod.fst =
        ["service", "host", "port", "username", "password"]) ∧
      (∀ f ∈ redisFs, f.map Prod.fst =
        ["service", "host", "port", "password"]) ∧
      (∀ f ∈ dbFs, "username" ∈ f.map Prod.fst) ∧
      (∀ f ∈ redisFs, "username" ∉ f.map Prod.fst) :=
  finding_keys_by_sweep envW cfgW (by decide)

end CredChecker
